import Mathlib

/-!
Verification of the fitness-tracker workout calculator (`homework.py`).

The program models workout records (running, sports walking, swimming),
computes distance, mean speed and calories from them, formats a fixed-form
report line, and dispatches a workout-type code to the right record
constructor.

Embedding conventions:
* Python numbers (ints and floats) are embedded as exact rationals `ℚ`.
* Python raises `ZeroDivisionError` on division by zero; a division whose
  divisor may be zero is embedded through `qdiv`, which returns `none`
  exactly when Python would raise.  Metric computations therefore return
  `Option ℚ`, with `none` standing for a raised `ZeroDivisionError`.
* Class inheritance is flattened: `Running`, `SportsWalking` and `Swimming`
  extend the base record `Training`; a base method that reads the
  dynamically-dispatched class attribute `LEN_STEP` takes it as an explicit
  argument.
* `read_package`'s `KeyError` (unknown workout code) and `TypeError`
  (constructor arity mismatch on `*data`) are embedded as the two
  constructors of `ReadError`.
-/

/-- Guarded division: `some (a / b)` unless `b = 0`, in which case `none`
(Python raises `ZeroDivisionError` there). -/
def qdiv (a b : ℚ) : Option ℚ := if b = 0 then none else some (a / b)

/-- Base workout record (`class Training`): raw measurements shared by all
variants (`action`, `duration` in hours, `weight` in kg). -/
structure Training where
  action : ℚ
  duration : ℚ
  weight : ℚ
  deriving DecidableEq

/-- Class attribute `Training.LEN_STEP = 0.65`. -/
def Training.LEN_STEP : ℚ := 0.65

/-- Class attribute `Training.M_IN_KM = 1000`. -/
def Training.M_IN_KM : ℚ := 1000

/-- Class attribute `Training.H_IN_MIN = 60`. -/
def Training.H_IN_MIN : ℚ := 60

/-- Base method `Training.get_distance`: `action * LEN_STEP / M_IN_KM`.
`len_step` is the dynamically-dispatched class attribute `self.LEN_STEP`
(overridden by `Swimming`). -/
def Training.get_distance (self : Training) (len_step : ℚ) : ℚ :=
  self.action * len_step / Training.M_IN_KM

/-- Base method `Training.get_mean_speed`: `get_distance() / duration`. -/
def Training.get_mean_speed (self : Training) (len_step : ℚ) : Option ℚ :=
  qdiv (self.get_distance len_step) self.duration

/-- `class Running(Training)`: no extra fields. -/
structure Running extends Training where
  deriving DecidableEq

/-- Class attribute `Running.CALORIES_MEAN_SPEED_MULTIPLIER = 18`. -/
def Running.CALORIES_MEAN_SPEED_MULTIPLIER : ℚ := 18

/-- Class attribute `Running.CALORIES_MEAN_SPEED_SHIFT = 1.79`. -/
def Running.CALORIES_MEAN_SPEED_SHIFT : ℚ := 1.79

/-- `Running.get_distance` (inherited from `Training`, base `LEN_STEP`). -/
def Running.get_distance (r : Running) : ℚ :=
  r.toTraining.get_distance Training.LEN_STEP

/-- `Running.get_mean_speed` (inherited from `Training`). -/
def Running.get_mean_speed (r : Running) : Option ℚ :=
  r.toTraining.get_mean_speed Training.LEN_STEP

/-- `Running.get_spent_calories`:
`(MULTIPLIER * speed + SHIFT) * weight / M_IN_KM * H_IN_MIN * duration`. -/
def Running.get_spent_calories (r : Running) : Option ℚ :=
  match r.get_mean_speed with
  | none => none
  | some speed =>
      some ((Running.CALORIES_MEAN_SPEED_MULTIPLIER * speed
              + Running.CALORIES_MEAN_SPEED_SHIFT) * r.weight
            / Training.M_IN_KM * Training.H_IN_MIN * r.duration)

/-- `class SportsWalking(Training)`: extra field `height` (cm). -/
structure SportsWalking extends Training where
  height : ℚ
  deriving DecidableEq

/-- Class attribute `SportsWalking.KMH_IN_MS = 0.278`. -/
def SportsWalking.KMH_IN_MS : ℚ := 0.278

/-- Class attribute `SportsWalking.SM_IN_M = 100`. -/
def SportsWalking.SM_IN_M : ℚ := 100

/-- Class attribute `SportsWalking.CALORIES_WEIGHT_MULTIPLIER_1 = 0.035`. -/
def SportsWalking.CALORIES_WEIGHT_MULTIPLIER_1 : ℚ := 0.035

/-- Class attribute `SportsWalking.CALORIES_WEIGHT_MULTIPLIER_2 = 0.029`. -/
def SportsWalking.CALORIES_WEIGHT_MULTIPLIER_2 : ℚ := 0.029

/-- `SportsWalking.get_distance` (inherited from `Training`, base `LEN_STEP`). -/
def SportsWalking.get_distance (w : SportsWalking) : ℚ :=
  w.toTraining.get_distance Training.LEN_STEP

/-- `SportsWalking.get_mean_speed` (inherited from `Training`). -/
def SportsWalking.get_mean_speed (w : SportsWalking) : Option ℚ :=
  w.toTraining.get_mean_speed Training.LEN_STEP

/-- `SportsWalking.get_spent_calories`:
`(MULT_1 * weight + (speed m/s)^2 / (height / SM_IN_M) * MULT_2 * weight)
 * H_IN_MIN * duration`, where `speed m/s = get_mean_speed() * KMH_IN_MS`.
The inner division raises in Python when `height / 100 = 0`. -/
def SportsWalking.get_spent_calories (w : SportsWalking) : Option ℚ :=
  match w.get_mean_speed with
  | none => none
  | some ms =>
      match qdiv ((ms * SportsWalking.KMH_IN_MS) ^ 2)
          (w.height / SportsWalking.SM_IN_M) with
      | none => none
      | some t =>
          some ((SportsWalking.CALORIES_WEIGHT_MULTIPLIER_1 * w.weight
                  + t * SportsWalking.CALORIES_WEIGHT_MULTIPLIER_2 * w.weight)
                * Training.H_IN_MIN * w.duration)

/-- `class Swimming(Training)`: extra fields `length_pool` (m) and
`count_pool`. -/
structure Swimming extends Training where
  length_pool : ℚ
  count_pool : ℚ
  deriving DecidableEq

/-- Overridden class attribute `Swimming.LEN_STEP = 1.38`. -/
def Swimming.LEN_STEP : ℚ := 1.38

/-- Class attribute `Swimming.CALORIES_MEAN_SPEED_SHIFT = 1.1`. -/
def Swimming.CALORIES_MEAN_SPEED_SHIFT : ℚ := 1.1

/-- Class attribute `Swimming.CALORIES_WEIGHT_MULTIPLIER = 2`. -/
def Swimming.CALORIES_WEIGHT_MULTIPLIER : ℚ := 2

/-- `Swimming.get_distance`: the inherited base method, which reads the
overridden `Swimming.LEN_STEP = 1.38` through dynamic dispatch. -/
def Swimming.get_distance (s : Swimming) : ℚ :=
  s.toTraining.get_distance Swimming.LEN_STEP

/-- Overridden `Swimming.get_mean_speed`:
`length_pool * count_pool / M_IN_KM / duration`. -/
def Swimming.get_mean_speed (s : Swimming) : Option ℚ :=
  qdiv (s.length_pool * s.count_pool / Training.M_IN_KM) s.duration

/-- `Swimming.get_spent_calories`:
`(speed + SHIFT) * MULTIPLIER * weight * duration`. -/
def Swimming.get_spent_calories (s : Swimming) : Option ℚ :=
  match s.get_mean_speed with
  | none => none
  | some speed =>
      some ((speed + Swimming.CALORIES_MEAN_SPEED_SHIFT)
            * Swimming.CALORIES_WEIGHT_MULTIPLIER * s.weight * s.duration)

/-- Decimal digit character for `n % 10`. -/
def digitChar (n : Nat) : Char :=
  match n % 10 with
  | 0 => '0'
  | 1 => '1'
  | 2 => '2'
  | 3 => '3'
  | 4 => '4'
  | 5 => '5'
  | 6 => '6'
  | 7 => '7'
  | 8 => '8'
  | _ => '9'

/-- Fuelled decimal rendering of a natural number (most significant digit
first); the fuel `n + 1` in `natToDec` always suffices. -/
def natToDecAux : Nat → Nat → List Char
  | 0, _ => []
  | fuel + 1, n =>
      if n < 10 then [digitChar n]
      else natToDecAux fuel (n / 10) ++ [digitChar n]

/-- Decimal rendering of a natural number. -/
def natToDec (n : Nat) : String :=
  String.mk (natToDecAux (n + 1) n)

/-- Three-digit zero-padded rendering of `n % 1000`. -/
def pad3 (n : Nat) : String :=
  String.mk [digitChar (n / 100), digitChar (n / 10), digitChar n]

/-- Computable floor of a rational: `num / den` with Euclidean integer
division (`den` is positive, so this is the mathematical floor). -/
def qfloor (q : ℚ) : ℤ := q.num / (q.den : ℤ)

/-- Fixed-point rendering with three fractional digits, modelling Python
`format(x, '.3f')` on the exact rational value (rounding modelled as round
half up at the third fractional digit). -/
def fmt3 (q : ℚ) : String :=
  let sign := if q < 0 then "-" else ""
  let m := (qfloor (|q| * 1000 + 1 / 2)).toNat
  (sign ++ natToDec (m / 1000)) ++ "." ++ pad3 (m % 1000)

/-- `class InfoMessage`: the computed report record. -/
structure InfoMessage where
  training_type : String
  duration : ℚ
  distance : ℚ
  speed : ℚ
  calories : ℚ
  deriving DecidableEq

/-- `InfoMessage.get_message`: the fixed report template, with every numeric
field rendered with three fractional digits. -/
def InfoMessage.get_message (m : InfoMessage) : String :=
  "Тип тренировки: " ++ m.training_type ++ "; Длительность: "
    ++ fmt3 m.duration ++ " ч.; Дистанция: " ++ fmt3 m.distance
    ++ " км; Ср. скорость: " ++ fmt3 m.speed ++ " км/ч; Потрачено ккал: "
    ++ fmt3 m.calories ++ "."

/-- `Running.show_training_info`: builds the `InfoMessage` with the class
name `"Running"` as label; `none` when a metric computation raises. -/
def Running.show_training_info (r : Running) : Option InfoMessage :=
  match r.get_mean_speed, r.get_spent_calories with
  | some speed, some calories =>
      some ⟨"Running", r.duration, r.get_distance, speed, calories⟩
  | _, _ => none

/-- `SportsWalking.show_training_info`: label `"SportsWalking"`. -/
def SportsWalking.show_training_info (w : SportsWalking) : Option InfoMessage :=
  match w.get_mean_speed, w.get_spent_calories with
  | some speed, some calories =>
      some ⟨"SportsWalking", w.duration, w.get_distance, speed, calories⟩
  | _, _ => none

/-- `Swimming.show_training_info`: label `"Swimming"`. -/
def Swimming.show_training_info (s : Swimming) : Option InfoMessage :=
  match s.get_mean_speed, s.get_spent_calories with
  | some speed, some calories =>
      some ⟨"Swimming", s.duration, s.get_distance, speed, calories⟩
  | _, _ => none

/-- A constructed workout: one of the three `Training` subclasses. -/
inductive TrainingVariant where
  | running : Running → TrainingVariant
  | walking : SportsWalking → TrainingVariant
  | swimming : Swimming → TrainingVariant
  deriving DecidableEq

/-- Duration of the underlying record of a constructed workout. -/
def TrainingVariant.duration : TrainingVariant → ℚ
  | .running r => r.duration
  | .walking w => w.duration
  | .swimming s => s.duration

/-- Mean speed of a constructed workout (dynamic dispatch). -/
def TrainingVariant.get_mean_speed : TrainingVariant → Option ℚ
  | .running r => r.get_mean_speed
  | .walking w => w.get_mean_speed
  | .swimming s => s.get_mean_speed

/-- Spent calories of a constructed workout (dynamic dispatch). -/
def TrainingVariant.get_spent_calories : TrainingVariant → Option ℚ
  | .running r => r.get_spent_calories
  | .walking w => w.get_spent_calories
  | .swimming s => s.get_spent_calories

/-- Report record of a constructed workout (dynamic dispatch). -/
def TrainingVariant.show_training_info : TrainingVariant → Option InfoMessage
  | .running r => r.show_training_info
  | .walking w => w.show_training_info
  | .swimming s => s.show_training_info

/-- Failure modes of `read_package`: the `KeyError` raised for an unknown
workout code (with its message), and the `TypeError` Python raises when the
positional arguments in `data` do not match the constructor's arity. -/
inductive ReadError where
  | unsupportedWorkoutType : String → ReadError
  | invalidArgumentCount : ReadError
  deriving DecidableEq

/-- `read_package(workout_type, data)`: dispatches the code through the
`training` dict (`'SWM' / 'RUN' / 'WLK'`) and applies the chosen constructor
to `data` positionally (`Swimming`: 5 values, `Running`: 3, `SportsWalking`:
4). -/
def read_package (workout_type : String) (data : List ℚ) :
    Except ReadError TrainingVariant :=
  if workout_type = "SWM" then
    match data with
    | [action, duration, weight, length_pool, count_pool] =>
        .ok (.swimming ⟨⟨action, duration, weight⟩, length_pool, count_pool⟩)
    | _ => .error .invalidArgumentCount
  else if workout_type = "RUN" then
    match data with
    | [action, duration, weight] =>
        .ok (.running ⟨⟨action, duration, weight⟩⟩)
    | _ => .error .invalidArgumentCount
  else if workout_type = "WLK" then
    match data with
    | [action, duration, weight, height] =>
        .ok (.walking ⟨⟨action, duration, weight⟩, height⟩)
    | _ => .error .invalidArgumentCount
  else
    .error (.unsupportedWorkoutType
      ("Тип тренировки \"" ++ workout_type ++ "\" не поддерживается"))

/-- The walking calorie formula exactly as the specification words it:
`(0.035*weightKg + (meanSpeed*0.278)^2 / (heightCm/100) * 0.029*weightKg)
 * 60 * durationHours`, with `meanSpeed = actionCount * 0.65 / 1000 /
durationHours`, each division guarded as in the code. -/
def walkCaloriesSpec (w : SportsWalking) : Option ℚ :=
  match qdiv (w.action * 0.65 / 1000) w.duration with
  | none => none
  | some meanSpeed =>
      match qdiv ((meanSpeed * 0.278) ^ 2) (w.height / 100) with
      | none => none
      | some t =>
          some ((0.035 * w.weight + t * 0.029 * w.weight) * 60 * w.duration)

/-- A string has exactly three fractional digits: it splits as
`a ++ "." ++ b` where `b` has length three and neither part contains a
further decimal point. -/
def threeFracDigits (s : String) : Prop :=
  ∃ a b : String, s = a ++ "." ++ b ∧ b.length = 3
    ∧ '.' ∉ a.data ∧ '.' ∉ b.data

/-! ## Helper lemmas -/

/-- A digit character is never the decimal point. -/
theorem digitChar_ne_dot (n : Nat) : digitChar n ≠ '.' := by
  unfold digitChar
  split <;> decide

/-- Decimal renderings of naturals never contain a decimal point. -/
theorem dot_not_mem_natToDecAux : ∀ fuel n : Nat, '.' ∉ natToDecAux fuel n := by
  intro fuel
  induction fuel with
  | zero => intro n; simp [natToDecAux]
  | succ f ih =>
      intro n
      unfold natToDecAux
      by_cases h : n < 10
      · simp only [h, if_true, List.mem_singleton]
        exact fun hh => digitChar_ne_dot n hh.symm
      · simp only [h, if_false, List.mem_append, List.mem_singleton]
        rintro (hh | hh)
        · exact ih (n / 10) hh
        · exact digitChar_ne_dot n hh.symm

/-- The rendered integer part contains no decimal point. -/
theorem dot_not_mem_natToDec (n : Nat) : '.' ∉ (natToDec n).data :=
  dot_not_mem_natToDecAux (n + 1) n

/-- The padded fractional part has exactly three characters. -/
theorem pad3_length (n : Nat) : (pad3 n).length = 3 := rfl

/-- The padded fractional part contains no decimal point. -/
theorem dot_not_mem_pad3 (n : Nat) : '.' ∉ (pad3 n).data := by
  intro h
  simp only [pad3, List.mem_cons, List.not_mem_nil, or_false] at h
  rcases h with h | h | h <;> exact digitChar_ne_dot _ h.symm

/-- Every `fmt3` rendering has exactly three fractional digits. -/
theorem fmt3_threeFracDigits (q : ℚ) : threeFracDigits (fmt3 q) := by
  refine ⟨(if q < 0 then "-" else "")
      ++ natToDec ((qfloor (|q| * 1000 + 1 / 2)).toNat / 1000),
    pad3 ((qfloor (|q| * 1000 + 1 / 2)).toNat % 1000),
    rfl, rfl, ?_, dot_not_mem_pad3 _⟩
  intro h
  rw [String.data_append] at h
  rcases List.mem_append.mp h with h | h
  · by_cases hq : q < 0
    · rw [if_pos hq] at h
      exact absurd h (by decide)
    · rw [if_neg hq] at h
      exact absurd h (by decide)
  · exact dot_not_mem_natToDec _ h

/-- Evaluation of the base mean-speed method when the duration is nonzero. -/
theorem training_speed_eq (t : Training) (ls : ℚ) (h : t.duration ≠ 0) :
    t.get_mean_speed ls = some (t.action * ls / 1000 / t.duration) := by
  simp [Training.get_mean_speed, Training.get_distance, Training.M_IN_KM,
    qdiv, h]

/-- Evaluation of the swimming mean-speed override when the duration is
nonzero. -/
theorem swimming_speed_eq (s : Swimming) (h : s.duration ≠ 0) :
    s.get_mean_speed
      = some (s.length_pool * s.count_pool / 1000 / s.duration) := by
  simp [Swimming.get_mean_speed, Training.M_IN_KM, qdiv, h]

/-- Base mean speed fails on a zero duration. -/
theorem training_speed_none (t : Training) (ls : ℚ) (h : t.duration = 0) :
    t.get_mean_speed ls = none := by
  simp [Training.get_mean_speed, qdiv, h]

/-- Swimming mean speed fails on a zero duration. -/
theorem swimming_speed_none (s : Swimming) (h : s.duration = 0) :
    s.get_mean_speed = none := by
  simp [Swimming.get_mean_speed, qdiv, h]

/-- Running calories fail on a zero duration. -/
theorem running_calories_none (r : Running) (h : r.duration = 0) :
    r.get_spent_calories = none := by
  simp [Running.get_spent_calories, Running.get_mean_speed,
    training_speed_none _ _ h]

/-- Walking calories fail on a zero duration. -/
theorem walking_calories_none (w : SportsWalking) (h : w.duration = 0) :
    w.get_spent_calories = none := by
  simp [SportsWalking.get_spent_calories, SportsWalking.get_mean_speed,
    training_speed_none _ _ h]

/-- Swimming calories fail on a zero duration. -/
theorem swimming_calories_none (s : Swimming) (h : s.duration = 0) :
    s.get_spent_calories = none := by
  simp [Swimming.get_spent_calories, swimming_speed_none _ h]

/-- Distance of the reference running workout. -/
theorem runEx_distance : Running.get_distance ⟨⟨15000, 1, 75⟩⟩ = 39 / 4 := by
  norm_num [Running.get_distance, Training.get_distance, Training.LEN_STEP,
    Training.M_IN_KM]

/-- Mean speed of the reference running workout. -/
theorem runEx_speed :
    Running.get_mean_speed ⟨⟨15000, 1, 75⟩⟩ = some (39 / 4) := by
  rw [Running.get_mean_speed, training_speed_eq _ _ (by norm_num)]
  norm_num [Training.LEN_STEP]

/-- Calories of the reference running workout. -/
theorem runEx_calories :
    Running.get_spent_calories ⟨⟨15000, 1, 75⟩⟩ = some (159561 / 200) := by
  rw [Running.get_spent_calories, runEx_speed]
  norm_num [Running.CALORIES_MEAN_SPEED_MULTIPLIER,
    Running.CALORIES_MEAN_SPEED_SHIFT, Training.M_IN_KM, Training.H_IN_MIN]

/-- Mean speed of the reference swimming workout. -/
theorem swimEx_speed :
    Swimming.get_mean_speed ⟨⟨720, 1, 80⟩, 25, 40⟩ = some 1 := by
  rw [swimming_speed_eq _ (by norm_num)]
  norm_num

/-- Calories of the reference swimming workout. -/
theorem swimEx_calories :
    Swimming.get_spent_calories ⟨⟨720, 1, 80⟩, 25, 40⟩ = some 336 := by
  rw [Swimming.get_spent_calories, swimEx_speed]
  norm_num [Swimming.CALORIES_MEAN_SPEED_SHIFT,
    Swimming.CALORIES_WEIGHT_MULTIPLIER]

/-- Distance of the reference walking workout. -/
theorem walkEx_distance :
    SportsWalking.get_distance ⟨⟨9000, 1, 75⟩, 180⟩ = 117 / 20 := by
  norm_num [SportsWalking.get_distance, Training.get_distance,
    Training.LEN_STEP, Training.M_IN_KM]

/-- Mean speed of the reference walking workout. -/
theorem walkEx_speed :
    SportsWalking.get_mean_speed ⟨⟨9000, 1, 75⟩, 180⟩ = some (117 / 20) := by
  rw [SportsWalking.get_mean_speed, training_speed_eq _ _ (by norm_num)]
  norm_num [Training.LEN_STEP]

/-- Calories of the reference walking workout. -/
theorem walkEx_calories :
    SportsWalking.get_spent_calories ⟨⟨9000, 1, 75⟩, 180⟩
      = some (349251747525 / 1000000000) := by
  rw [SportsWalking.get_spent_calories, walkEx_speed]
  norm_num [qdiv, SportsWalking.KMH_IN_MS, SportsWalking.SM_IN_M,
    SportsWalking.CALORIES_WEIGHT_MULTIPLIER_1,
    SportsWalking.CALORIES_WEIGHT_MULTIPLIER_2, Training.H_IN_MIN]

/-- A successful running report carries the label `"Running"`. -/
theorem running_label_of_show (r : Running) (info : InfoMessage)
    (h : r.show_training_info = some info) :
    info.training_type = "Running" := by
  unfold Running.show_training_info at h
  cases hs : r.get_mean_speed with
  | none => rw [hs] at h; exact absurd h (by simp)
  | some speed =>
      cases hc : r.get_spent_calories with
      | none => rw [hs, hc] at h; exact absurd h (by simp)
      | some calories =>
          rw [hs, hc] at h
          cases Option.some.inj h
          rfl

/-- A successful walking report carries the label `"SportsWalking"`. -/
theorem walking_label_of_show (w : SportsWalking) (info : InfoMessage)
    (h : w.show_training_info = some info) :
    info.training_type = "SportsWalking" := by
  unfold SportsWalking.show_training_info at h
  cases hs : w.get_mean_speed with
  | none => rw [hs] at h; exact absurd h (by simp)
  | some speed =>
      cases hc : w.get_spent_calories with
      | none => rw [hs, hc] at h; exact absurd h (by simp)
      | some calories =>
          rw [hs, hc] at h
          cases Option.some.inj h
          rfl

/-- A successful swimming report carries the label `"Swimming"`. -/
theorem swimming_label_of_show (s : Swimming) (info : InfoMessage)
    (h : s.show_training_info = some info) :
    info.training_type = "Swimming" := by
  unfold Swimming.show_training_info at h
  cases hs : s.get_mean_speed with
  | none => rw [hs] at h; exact absurd h (by simp)
  | some speed =>
      cases hc : s.get_spent_calories with
      | none => rw [hs, hc] at h; exact absurd h (by simp)
      | some calories =>
          rw [hs, hc] at h
          cases Option.some.inj h
          rfl

/-! ## Claims -/

/-- C1 counterexample: for Running with `action = 15000`, `duration = 1`,
`weight = 75` the code returns exactly `159561 / 200 = 797.805` kcal, which
is more than `100` away from the claimed `≈ 1582.03`. -/
theorem running_example_calories_not_1582 :
    Running.get_spent_calories ⟨⟨15000, 1, 75⟩⟩ = some (159561 / 200)
    ∧ |(159561 : ℚ) / 200 - 1582.03| > 100 := by
  constructor
  · exact runEx_calories
  · rw [abs_of_nonpos (by norm_num)]
    norm_num

/-- C1 (amended): for Running with `action = 15000`, `duration = 1`,
`weight = 75`, `get_distance` returns `9.75` km, `get_mean_speed` returns
`9.75` km/h, and `get_spent_calories` returns
`(18 * meanSpeed + 1.79) * weight / 1000 * 60 * duration`, which is exactly
`797.805` kcal (not `≈ 1582.03`). -/
theorem running_example_metrics :
    Running.get_distance ⟨⟨15000, 1, 75⟩⟩ = 39 / 4
    ∧ Running.get_mean_speed ⟨⟨15000, 1, 75⟩⟩ = some (39 / 4)
    ∧ Running.get_spent_calories ⟨⟨15000, 1, 75⟩⟩
        = some ((18 * (39 / 4) + 1.79) * 75 / 1000 * 60 * 1)
    ∧ ((18 : ℚ) * (39 / 4) + 1.79) * 75 / 1000 * 60 * 1 = 159561 / 200 := by
  refine ⟨runEx_distance, runEx_speed, ?_, by norm_num⟩
  rw [runEx_calories]
  norm_num

/-- C2 counterexample: for the Swimming workout `(720, 1, 80, 25, 40)` the
distance is `720 * 1.38 / 1000 = 0.9936` km, not the pool-geometry value
`25 * 40 / 1000 = 1` km, and changing only the stroke count (keeping the
pool geometry fixed) changes the distance. -/
theorem swimming_distance_not_pool_geometry :
    Swimming.get_distance ⟨⟨720, 1, 80⟩, 25, 40⟩ ≠ 25 * 40 / 1000
    ∧ Swimming.get_distance ⟨⟨720, 1, 80⟩, 25, 40⟩
        ≠ Swimming.get_distance ⟨⟨721, 1, 80⟩, 25, 40⟩ := by
  constructor <;>
    norm_num [Swimming.get_distance, Training.get_distance,
      Swimming.LEN_STEP, Training.M_IN_KM]

/-- C2 (amended): for every Swimming workout, `get_distance` is the
inherited base formula with the overridden stroke length: it returns
`action * 1.38 / 1000`, derived from the stroke count and independent of
`length_pool` and `count_pool`; it is not computed from pool geometry. -/
theorem swimming_distance_from_action :
    (∀ s : Swimming, s.get_distance = s.action * 1.38 / 1000)
    ∧ (∀ a d w lp cp lp' cp' : ℚ,
        Swimming.get_distance ⟨⟨a, d, w⟩, lp, cp⟩
          = Swimming.get_distance ⟨⟨a, d, w⟩, lp', cp'⟩) := by
  constructor
  · intro s
    norm_num [Swimming.get_distance, Training.get_distance,
      Swimming.LEN_STEP, Training.M_IN_KM]
  · intro a d w lp cp lp' cp'
    rfl

/-- C3: on every workout variant whose record has a zero duration, both the
mean-speed and the calorie computations fail with a division-by-zero
(`none`) instead of returning a number. -/
theorem zero_duration_fails :
    ∀ v : TrainingVariant, v.duration = 0 →
      v.get_mean_speed = none ∧ v.get_spent_calories = none := by
  intro v hd
  cases v with
  | running r => exact ⟨training_speed_none _ _ hd, running_calories_none _ hd⟩
  | walking w =>
      exact ⟨training_speed_none _ _ hd, walking_calories_none _ hd⟩
  | swimming s => exact ⟨swimming_speed_none _ hd, swimming_calories_none _ hd⟩

/-- C3 witness: a concrete zero-duration running workout fails both
computations. -/
theorem zero_duration_fails_witness :
    TrainingVariant.get_mean_speed (.running ⟨⟨15000, 0, 75⟩⟩) = none
    ∧ TrainingVariant.get_spent_calories (.running ⟨⟨15000, 0, 75⟩⟩) = none :=
  zero_duration_fails (.running ⟨⟨15000, 0, 75⟩⟩) rfl

/-- C4: for each known workout code, a `values` list whose length differs
from the resolved constructor's arity (`RUN`: 3, `WLK`: 4, `SWM`: 5) makes
`read_package` fail with the arity error; in particular
`read_package "RUN" [1, 1]` fails so. -/
theorem read_package_arity :
    (∀ data : List ℚ, data.length ≠ 3 →
        read_package "RUN" data = .error .invalidArgumentCount)
    ∧ (∀ data : List ℚ, data.length ≠ 4 →
        read_package "WLK" data = .error .invalidArgumentCount)
    ∧ (∀ data : List ℚ, data.length ≠ 5 →
        read_package "SWM" data = .error .invalidArgumentCount)
    ∧ read_package "RUN" [1, 1] = .error .invalidArgumentCount := by
  refine ⟨?_, ?_, ?_, by simp [read_package]⟩
  · intro data h
    rcases data with _ | ⟨a, _ | ⟨b, _ | ⟨c, _ | ⟨d, t⟩⟩⟩⟩ <;>
      simp_all [read_package]
  · intro data h
    rcases data with _ | ⟨a, _ | ⟨b, _ | ⟨c, _ | ⟨d, _ | ⟨e, t⟩⟩⟩⟩⟩ <;>
      simp_all [read_package]
  · intro data h
    rcases data with _ | ⟨a, _ | ⟨b, _ | ⟨c, _ | ⟨d, _ | ⟨e, _ | ⟨f, t⟩⟩⟩⟩⟩⟩ <;>
      simp_all [read_package]

/-- C4 witness: two concrete arity mismatches fail with the arity error. -/
theorem read_package_arity_witness :
    read_package "RUN" [1, 1] = .error .invalidArgumentCount
    ∧ read_package "SWM" [720, 1, 80, 25] = .error .invalidArgumentCount :=
  ⟨read_package_arity.1 [1, 1] (by decide),
    read_package_arity.2.2.1 [720, 1, 80, 25] (by decide)⟩

/-- C5: an unknown workout code makes `read_package` fail with the
unsupported-type error whose message names the offending code, while the
codes `SWM`, `RUN` and `WLK` construct the Swimming, Running and
SportsWalking variants from the positional values. -/
theorem read_package_dispatch :
    (∀ (code : String) (data : List ℚ),
        code ≠ "SWM" → code ≠ "RUN" → code ≠ "WLK" →
        read_package code data = .error (.unsupportedWorkoutType
          ("Тип тренировки \"" ++ code ++ "\" не поддерживается")))
    ∧ (∀ action duration weight length_pool count_pool : ℚ,
        read_package "SWM" [action, duration, weight, length_pool, count_pool]
          = .ok (.swimming ⟨⟨action, duration, weight⟩,
              length_pool, count_pool⟩))
    ∧ (∀ action duration weight : ℚ,
        read_package "RUN" [action, duration, weight]
          = .ok (.running ⟨⟨action, duration, weight⟩⟩))
    ∧ (∀ action duration weight height : ℚ,
        read_package "WLK" [action, duration, weight, height]
          = .ok (.walking ⟨⟨action, duration, weight⟩, height⟩)) := by
  refine ⟨?_, ?_, ?_, ?_⟩
  · intro code data h1 h2 h3
    simp [read_package, h1, h2, h3]
  · intro action duration weight length_pool count_pool; rfl
  · intro action duration weight; rfl
  · intro action duration weight height; rfl

/-- C5 witness: the unknown code `"XYZ"` fails with a message naming it,
and each known code constructs its variant. -/
theorem read_package_dispatch_witness :
    read_package "XYZ" [1, 2, 3] = .error (.unsupportedWorkoutType
      ("Тип тренировки \"" ++ "XYZ" ++ "\" не поддерживается"))
    ∧ read_package "RUN" [15000, 1, 75]
        = .ok (.running ⟨⟨15000, 1, 75⟩⟩) :=
  ⟨read_package_dispatch.1 "XYZ" [1, 2, 3]
      (by decide) (by decide) (by decide),
    read_package_dispatch.2.2.1 15000 1 75⟩

/-- C6: every successfully formatted report is exactly the fixed template
with its four numeric fields rendered by `fmt3` — each with exactly three
fractional digits after a `'.'` separator — and the label is exactly the
variant's class name (`"Running"`, `"SportsWalking"` or `"Swimming"`). -/
theorem report_format :
    ∀ (v : TrainingVariant) (info : InfoMessage),
      v.show_training_info = some info →
      info.get_message
          = "Тип тренировки: " ++ info.training_type ++ "; Длительность: "
            ++ fmt3 info.duration ++ " ч.; Дистанция: " ++ fmt3 info.distance
            ++ " км; Ср. скорость: " ++ fmt3 info.speed
            ++ " км/ч; Потрачено ккал: " ++ fmt3 info.calories ++ "."
        ∧ threeFracDigits (fmt3 info.duration)
        ∧ threeFracDigits (fmt3 info.distance)
        ∧ threeFracDigits (fmt3 info.speed)
        ∧ threeFracDigits (fmt3 info.calories)
        ∧ (∀ r, v = .running r → info.training_type = "Running")
        ∧ (∀ w, v = .walking w → info.training_type = "SportsWalking")
        ∧ (∀ s, v = .swimming s → info.training_type = "Swimming")
        ∧ (info.training_type = "Running"
            ∨ info.training_type = "SportsWalking"
            ∨ info.training_type = "Swimming") := by
  intro v info h
  refine ⟨rfl, fmt3_threeFracDigits _, fmt3_threeFracDigits _,
    fmt3_threeFracDigits _, fmt3_threeFracDigits _, ?_, ?_, ?_, ?_⟩
  · intro r hv
    subst hv
    exact running_label_of_show r info h
  · intro w hv
    subst hv
    exact walking_label_of_show w info h
  · intro s hv
    subst hv
    exact swimming_label_of_show s info h
  · cases v with
    | running r => exact Or.inl (running_label_of_show r info h)
    | walking w => exact Or.inr (Or.inl (walking_label_of_show w info h))
    | swimming s => exact Or.inr (Or.inr (swimming_label_of_show s info h))

/-- C6 witness: the reference running workout yields a report whose
duration field rendering has exactly three fractional digits and whose
label is `"Running"`. -/
theorem report_format_witness :
    threeFracDigits (fmt3 (1 : ℚ))
    ∧ (InfoMessage.mk "Running" 1 (39 / 4) (39 / 4)
        (159561 / 200)).training_type = "Running" := by
  have h := report_format (.running ⟨⟨15000, 1, 75⟩⟩)
    ⟨"Running", 1, 39 / 4, 39 / 4, 159561 / 200⟩
    (by
      show Running.show_training_info ⟨⟨15000, 1, 75⟩⟩ = _
      rw [Running.show_training_info, runEx_speed, runEx_calories,
        runEx_distance])
  exact ⟨h.2.1, h.2.2.2.2.2.1 ⟨⟨15000, 1, 75⟩⟩ rfl⟩

/-- C7: for every Walking workout with positive duration, the calories are
exactly the specification's formula
`(0.035*weight + (meanSpeed*0.278)^2 / (height/100) * 0.029*weight) * 60 *
duration` (with the same division-by-zero behaviour on `height`); for
`(9000, 1, 75, 180)` the distance is `5.85` km and the calorie result is a
positive rational. -/
theorem walking_calories_formula :
    (∀ w : SportsWalking, 0 < w.duration →
        w.get_spent_calories = walkCaloriesSpec w)
    ∧ SportsWalking.get_distance ⟨⟨9000, 1, 75⟩, 180⟩ = 117 / 20
    ∧ (∃ c : ℚ, SportsWalking.get_spent_calories ⟨⟨9000, 1, 75⟩, 180⟩
          = some c ∧ 0 < c) := by
  refine ⟨?_, walkEx_distance, 349251747525 / 1000000000,
    walkEx_calories, by norm_num⟩
  intro w _
  rfl

/-- C7 witness: the reference walking workout's calories agree with the
specification formula, with a positive duration. -/
theorem walking_calories_formula_witness :
    SportsWalking.get_spent_calories ⟨⟨9000, 1, 75⟩, 180⟩
      = walkCaloriesSpec ⟨⟨9000, 1, 75⟩, 180⟩ :=
  walking_calories_formula.1 ⟨⟨9000, 1, 75⟩, 180⟩ (by norm_num)

/-- C8: for every Swimming workout with positive duration, the mean speed
is `length_pool * count_pool / 1000 / duration`, and on `(720, 1, 80, 25,
40)` it is exactly `1` km/h — differing from the base distance-over-duration
formula, which the override replaces. -/
theorem swimming_mean_speed_formula :
    (∀ s : Swimming, 0 < s.duration →
        s.get_mean_speed
          = some (s.length_pool * s.count_pool / 1000 / s.duration))
    ∧ Swimming.get_mean_speed ⟨⟨720, 1, 80⟩, 25, 40⟩ = some 1
    ∧ Swimming.get_mean_speed ⟨⟨720, 1, 80⟩, 25, 40⟩
        ≠ qdiv (Swimming.get_distance ⟨⟨720, 1, 80⟩, 25, 40⟩) 1 := by
  refine ⟨fun s h => swimming_speed_eq s h.ne', swimEx_speed, ?_⟩
  rw [swimEx_speed]
  norm_num [qdiv, Swimming.get_distance, Training.get_distance,
    Swimming.LEN_STEP, Training.M_IN_KM]

/-- C8 witness: the mean-speed formula applied to the reference swimming
workout. -/
theorem swimming_mean_speed_formula_witness :
    Swimming.get_mean_speed ⟨⟨720, 1, 80⟩, 25, 40⟩
      = some ((25 : ℚ) * 40 / 1000 / 1) :=
  swimming_mean_speed_formula.1 ⟨⟨720, 1, 80⟩, 25, 40⟩ (by norm_num)

/-- C9: for every Swimming workout with positive duration, the calories are
`(meanSpeed + 1.1) * 2 * weight * duration` with the Swimming mean speed,
and for `(720, 1, 80, 25, 40)` they are exactly `336` kcal. -/
theorem swimming_calories_formula :
    (∀ s : Swimming, 0 < s.duration →
        s.get_spent_calories
          = some ((s.length_pool * s.count_pool / 1000 / s.duration + 1.1)
              * 2 * s.weight * s.duration))
    ∧ Swimming.get_spent_calories ⟨⟨720, 1, 80⟩, 25, 40⟩ = some 336 := by
  refine ⟨?_, swimEx_calories⟩
  intro s h
  rw [Swimming.get_spent_calories, swimming_speed_eq s h.ne']
  rfl

/-- C9 witness: the calorie formula applied to the reference swimming
workout. -/
theorem swimming_calories_formula_witness :
    Swimming.get_spent_calories ⟨⟨720, 1, 80⟩, 25, 40⟩
      = some (((25 : ℚ) * 40 / 1000 / 1 + 1.1) * 2 * 80 * 1) :=
  swimming_calories_formula.1 ⟨⟨720, 1, 80⟩, 25, 40⟩ (by norm_num)

/-- C10: a Walking workout with `height = 0` fails the calorie computation
with a division by zero even when the duration is positive: totality needs
`height ≠ 0` in addition to `duration > 0`. -/
theorem walking_zero_height_calories_fail :
    ∀ w : SportsWalking, w.height = 0 → 0 < w.duration →
      w.get_spent_calories = none := by
  intro w hh hd
  rw [SportsWalking.get_spent_calories, SportsWalking.get_mean_speed,
    training_speed_eq _ _ hd.ne']
  simp [qdiv, hh]

/-- C10 witness: the reference walking workout with its height zeroed out
fails the calorie computation. -/
theorem walking_zero_height_calories_fail_witness :
    SportsWalking.get_spent_calories ⟨⟨9000, 1, 75⟩, 0⟩ = none :=
  walking_zero_height_calories_fail ⟨⟨9000, 1, 75⟩, 0⟩ rfl (by norm_num)
